import Mathlib

/-!
Verification development for the `ConversationsRouter` HTTP endpoint group
(`src/py/core/main/api/v3/conversations_router.py`).

The router is glue over an external `ManagementService` collaborator: each
handler performs request-shape validation, identity scoping
(`None if auth_user.is_superuser else [auth_user.id]`), and delegation.
We embed the seven handlers as Lean functions parameterised by an abstract
service record (so "the downstream service is never called" can be stated as
independence of the result from the service), and additionally instantiate
the service with a concrete state machine modelled from the specification's
collaborator contracts, for the claims that concern end-to-end behaviour
(round-trips, ownership filtering, pagination totals).
-/

/-- An authenticated principal: unique identifier plus superuser flag
(the `auth_user` value supplied by the auth dependency). -/
structure AuthUser where
  id : Nat
  is_superuser : Bool
deriving DecidableEq

/-- A conversation as surfaced by the service: identifier, owning user
identifier, optional display name. -/
structure Conversation where
  id : Nat
  user_id : Nat
  name : Option String
deriving DecidableEq

/-- Message metadata: a mapping of string keys to string values
(`dict[str, str]` in the source), embedded as an association list. -/
abbrev Metadata := List (String × String)

/-- The message shell constructed by the add-message handler
(`Message(role=role, content=content)` in the source). -/
structure Message where
  role : String
  content : String
deriving DecidableEq

/-- A persisted message as owned by the management service: identifier,
enclosing conversation, role, content, optional parent message, metadata. -/
structure MessageRecord where
  id : Nat
  conversation_id : Nat
  role : String
  content : String
  parent_id : Option Nat
  metadata : Metadata
deriving DecidableEq

/-- The `{results, total_entries}` envelope returned by
`conversations_overview` and reshaped by the list handler. -/
structure ConversationsOverview where
  results : List Conversation
  total_entries : Nat
deriving DecidableEq

/-- Conversation detail returned by the get handler: the conversation and
its messages. -/
structure ConversationDetail where
  conversation : Conversation
  messages : List MessageRecord
deriving DecidableEq

/-- The `{success: ...}` acknowledgment (`GenericBooleanResponse`). -/
structure GenericBooleanResponse where
  success : Bool
deriving DecidableEq

/-- Errors raised by the downstream management service (not-found or
not-owned / forbidden, per downstream policy). -/
inductive ServiceError where
  | notFound
  | forbidden
  | other (message : String)
deriving DecidableEq

/-- Errors surfaced by a handler: an `R2RException` raised in the handler
body (message and HTTP status code), a `ValueError` escaping the in-handler
`UUID(...)` conversion (not a framework-level 400 validation rejection), or
a propagated downstream service error. -/
inductive HandlerError where
  | r2r (message : String) (status_code : Nat)
  | uuidValueError (message : String)
  | service (e : ServiceError)
deriving DecidableEq

/-- Numeric value of a hexadecimal digit, if any. -/
def hexVal? (c : Char) : Option Nat :=
  if '0' ≤ c ∧ c ≤ '9' then some (c.toNat - '0'.toNat)
  else if 'a' ≤ c ∧ c ≤ 'f' then some (c.toNat - 'a'.toNat + 10)
  else if 'A' ≤ c ∧ c ≤ 'F' then some (c.toNat - 'A'.toNat + 10)
  else none

/-- Value of a list of hexadecimal digits, if all are valid. -/
def hexValue? (cs : List Char) : Option Nat :=
  cs.foldlM (fun acc c => (hexVal? c).map (fun v => acc * 16 + v)) 0

/-- Models the standard-library `UUID(str)` constructor used by the list
handler, on its canonical forms: hyphens are removed, and the remainder must
be exactly 32 hexadecimal digits; otherwise a `ValueError` is raised. (The
constructor's rarer spellings — urn prefixes and surrounding braces — are
not needed by any property below and are omitted.) -/
def pyUUID (s : String) : Except String Nat :=
  let hexDigits := s.data.filter (fun c => c ≠ '-')
  if hexDigits.length = 32 then
    match hexValue? hexDigits with
    | some n => .ok n
    | none => .error "badly formed hexadecimal UUID string"
  else .error "badly formed hexadecimal UUID string"

/-- The list comprehension `[UUID(cid) for cid in ids]`: left-to-right
conversion, raising on the first invalid string. -/
def parseUUIDList : List String → Except String (List Nat)
  | [] => .ok []
  | s :: rest =>
    match pyUUID s with
    | .error e => .error e
    | .ok u =>
      match parseUUIDList rest with
      | .error e => .error e
      | .ok us => .ok (u :: us)

/-- The `ManagementService` collaborator interface consumed by the router,
over an abstract persistent state `σ`: one operation per contract listed in
the specification's external-interface section. Reads return results;
mutations return the updated state; fallible operations return `Except`. -/
structure ManagementService (σ : Type) where
  create_conversation : σ → Nat → Option String → σ × Conversation
  conversations_overview : σ → Nat → Nat → List Nat → Option (List Nat) → ConversationsOverview
  get_conversation : σ → Nat → Option (List Nat) → Except ServiceError ConversationDetail
  update_conversation : σ → Nat → String → Except ServiceError (σ × Conversation)
  delete_conversation : σ → Nat → Option (List Nat) → Except ServiceError σ
  add_message : σ → Nat → Message → Option Nat → Option Metadata → Except ServiceError (σ × MessageRecord)
  edit_message : σ → Nat → Option String → Option Metadata → Except ServiceError (σ × MessageRecord)

namespace ConversationsRouter

/-- Handler `create_conversation` (POST /conversations): reads
`user_id = auth_user.id` and delegates to the service's create call. -/
def create_conversation {σ : Type} (svc : ManagementService σ) (st : σ)
    (name : Option String) (auth_user : AuthUser) : σ × Conversation :=
  let user_id := auth_user.id
  svc.create_conversation st user_id name

/-- Handler `list_conversations` (GET /conversations): computes the
identity-scoping restriction, converts each id string with `UUID(...)`
inside the handler body, then delegates to `conversations_overview` and
reshapes the response envelope. -/
def list_conversations {σ : Type} (svc : ManagementService σ) (st : σ)
    (ids : List String) (offset limit : Nat) (auth_user : AuthUser) :
    Except HandlerError ConversationsOverview :=
  let requesting_user_id := if auth_user.is_superuser then none else some [auth_user.id]
  match parseUUIDList ids with
  | .error e => .error (.uuidValueError e)
  | .ok conversation_uuids =>
    let conversations_response :=
      svc.conversations_overview st offset limit conversation_uuids requesting_user_id
    .ok { results := conversations_response.results
          total_entries := conversations_response.total_entries }

/-- Handler `get_conversation` (GET /conversations/id): computes the
identity-scoping restriction and delegates. -/
def get_conversation {σ : Type} (svc : ManagementService σ) (st : σ)
    (id : Nat) (auth_user : AuthUser) : Except HandlerError ConversationDetail :=
  let requesting_user_id := if auth_user.is_superuser then none else some [auth_user.id]
  (svc.get_conversation st id requesting_user_id).mapError .service

/-- Handler `update_conversation` (POST /conversations/id): delegates the
rename directly; note that no identity restriction is computed or passed. -/
def update_conversation {σ : Type} (svc : ManagementService σ) (st : σ)
    (id : Nat) (name : String) (auth_user : AuthUser) :
    Except HandlerError (σ × Conversation) :=
  (svc.update_conversation st id name).mapError .service

/-- Handler `delete_conversation` (DELETE /conversations/id): computes the
identity-scoping restriction, delegates, and acknowledges success with
`GenericBooleanResponse(success=True)` when the downstream call returns. -/
def delete_conversation {σ : Type} (svc : ManagementService σ) (st : σ)
    (id : Nat) (auth_user : AuthUser) :
    Except HandlerError (σ × GenericBooleanResponse) :=
  let requesting_user_id := if auth_user.is_superuser then none else some [auth_user.id]
  match svc.delete_conversation st id requesting_user_id with
  | .error e => .error (.service e)
  | .ok st' => .ok (st', { success := true })

/-- Handler `add_message` (POST /conversations/id/messages): raises
`R2RException(400)` for empty content or a role outside
user/assistant/system, before any delegation; otherwise wraps the content in
a `Message` and delegates. -/
def add_message {σ : Type} (svc : ManagementService σ) (st : σ)
    (id : Nat) (content role : String) (parent_id : Option Nat)
    (metadata : Option Metadata) (auth_user : AuthUser) :
    Except HandlerError (σ × MessageRecord) :=
  if content = "" then .error (.r2r "Content cannot be empty" 400)
  else if ¬ role ∈ (["user", "assistant", "system"] : List String) then
    .error (.r2r "Invalid role" 400)
  else
    let msg : Message := { role := role, content := content }
    (svc.add_message st id msg parent_id metadata).mapError .service

/-- Handler `update_message` (POST /conversations/id/messages/message_id):
delegates unconditionally to `edit_message`, forwarding only `message_id`,
`content` and `metadata`; the conversation `id` path parameter and
`auth_user` are ignored by the body. -/
def update_message {σ : Type} (svc : ManagementService σ) (st : σ)
    (id : Nat) (message_id : Nat) (content : Option String)
    (metadata : Option Metadata) (auth_user : AuthUser) :
    Except HandlerError (σ × MessageRecord) :=
  (svc.edit_message st message_id content metadata).mapError .service

end ConversationsRouter

/-- Modelled from the spec: the persistent state owned by the external
`ManagementService` (which is not part of the router source): a fresh-id
counter and the stored conversations and messages. -/
structure MgmtState where
  next_id : Nat
  conversations : List Conversation
  messages : List MessageRecord
deriving DecidableEq

/-- Modelled from the spec: whether an owner passes an optional user-id
restriction — no restriction admits every owner; a restriction admits
exactly the listed owners. -/
def ownerAllowed (user_ids : Option (List Nat)) (owner : Nat) : Bool :=
  match user_ids with
  | none => true
  | some l => decide (owner ∈ l)

namespace Mgmt

/-- Modelled from the spec: `createConversation(ownerId, name?) ->
Conversation` — creates a conversation with a fresh identifier, owned by the
given user, with the given optional name. -/
def create_conversation (st : MgmtState) (user_id : Nat) (name : Option String) :
    MgmtState × Conversation :=
  let c : Conversation := { id := st.next_id, user_id := user_id, name := name }
  ({ st with next_id := st.next_id + 1, conversations := st.conversations ++ [c] }, c)

/-- Modelled from the spec: the set of conversations matching the optional
id filter (an empty id list means no filter) and the optional ownership
restriction. -/
def overviewMatching (st : MgmtState) (conversation_ids : List Nat)
    (user_ids : Option (List Nat)) : List Conversation :=
  st.conversations.filter fun c =>
    (conversation_ids.isEmpty || decide (c.id ∈ conversation_ids))
      && ownerAllowed user_ids c.user_id

/-- Modelled from the spec: `conversationsOverview(offset, limit, ids?,
ownerIds?) -> {results, total_entries}` — `total_entries` reflects the total
matching filter set; `results` is the page at the given offset and limit. -/
def conversations_overview (st : MgmtState) (offset limit : Nat)
    (conversation_ids : List Nat) (user_ids : Option (List Nat)) :
    ConversationsOverview :=
  { results := ((overviewMatching st conversation_ids user_ids).drop offset).take limit
    total_entries := (overviewMatching st conversation_ids user_ids).length }

/-- Modelled from the spec: `getConversation(id, ownerIds?) ->
ConversationDetail` — the conversation and its messages; unknown ids or a
failed ownership restriction yield a not-found error. -/
def get_conversation (st : MgmtState) (conversation_id : Nat)
    (user_ids : Option (List Nat)) : Except ServiceError ConversationDetail :=
  match st.conversations.find? (fun c => c.id == conversation_id) with
  | none => .error .notFound
  | some c =>
    if ownerAllowed user_ids c.user_id then
      .ok { conversation := c
            messages := st.messages.filter (fun m => m.conversation_id == conversation_id) }
    else .error .notFound

/-- Modelled from the spec: `updateConversation(id, name) -> Conversation` —
renames the conversation; no ownership restriction appears in this
contract. Unknown ids yield a not-found error. -/
def update_conversation (st : MgmtState) (conversation_id : Nat) (name : String) :
    Except ServiceError (MgmtState × Conversation) :=
  match st.conversations.find? (fun c => c.id == conversation_id) with
  | none => .error .notFound
  | some c =>
    let c' : Conversation := { c with name := some name }
    .ok ({ st with conversations :=
             st.conversations.map (fun d => if d.id == conversation_id then c' else d) },
         c')

/-- Modelled from the spec: `deleteConversation(id, ownerIds?) -> void` —
hard-deletes the conversation and its messages; unknown ids or a failed
ownership restriction yield a not-found error. -/
def delete_conversation (st : MgmtState) (conversation_id : Nat)
    (user_ids : Option (List Nat)) : Except ServiceError MgmtState :=
  match st.conversations.find? (fun c => c.id == conversation_id) with
  | none => .error .notFound
  | some c =>
    if ownerAllowed user_ids c.user_id then
      .ok { st with
              conversations := st.conversations.filter (fun d => !(d.id == conversation_id))
              messages := st.messages.filter (fun m => !(m.conversation_id == conversation_id)) }
    else .error .notFound

/-- Modelled from the spec: `addMessage(conversationId, message, parentId?,
metadata?) -> Message` — appends a fresh message under an existing
conversation; no ownership restriction appears in this contract. -/
def add_message (st : MgmtState) (conversation_id : Nat) (msg : Message)
    (parent_id : Option Nat) (metadata : Option Metadata) :
    Except ServiceError (MgmtState × MessageRecord) :=
  match st.conversations.find? (fun c => c.id == conversation_id) with
  | none => .error .notFound
  | some _ =>
    let m : MessageRecord :=
      { id := st.next_id, conversation_id := conversation_id, role := msg.role
        content := msg.content, parent_id := parent_id, metadata := metadata.getD [] }
    .ok ({ st with next_id := st.next_id + 1, messages := st.messages ++ [m] }, m)

/-- Modelled from the spec: `editMessage(messageId, content?, metadata?) ->
Message` — updates the message's content and/or metadata; role and parent
are immutable; no ownership restriction appears in this contract. -/
def edit_message (st : MgmtState) (message_id : Nat) (new_content : Option String)
    (additional_metadata : Option Metadata) :
    Except ServiceError (MgmtState × MessageRecord) :=
  match st.messages.find? (fun m => m.id == message_id) with
  | none => .error .notFound
  | some m =>
    let m' : MessageRecord :=
      { m with content := new_content.getD m.content
               metadata := m.metadata ++ additional_metadata.getD [] }
    .ok ({ st with messages := st.messages.map (fun x => if x.id == message_id then m' else x) },
         m')

end Mgmt

/-- Modelled from the spec: the concrete `ManagementService` instance over
`MgmtState`. -/
def mgmtService : ManagementService MgmtState :=
  { create_conversation := Mgmt.create_conversation
    conversations_overview := Mgmt.conversations_overview
    get_conversation := Mgmt.get_conversation
    update_conversation := Mgmt.update_conversation
    delete_conversation := Mgmt.delete_conversation
    add_message := Mgmt.add_message
    edit_message := Mgmt.edit_message }

/-- Well-formedness of the modelled state: stored identifiers are unique
and below the fresh-id counter. -/
def MgmtState.WF (st : MgmtState) : Prop :=
  (st.conversations.map (fun c => c.id)).Nodup
    ∧ (∀ c ∈ st.conversations, c.id < st.next_id)
    ∧ (st.messages.map (fun m => m.id)).Nodup
    ∧ (∀ m ∈ st.messages, m.id < st.next_id)

instance (st : MgmtState) : Decidable st.WF := by
  unfold MgmtState.WF; infer_instance

deriving instance DecidableEq for Except

/-- Whether a handler outcome is an in-handler `R2RException` with status
code 400 (the handler-raised validation errors). -/
def isValidation400 {α : Type} : Except HandlerError α → Bool
  | .error (.r2r _ 400) => true
  | _ => false

/-- A concrete empty service state, used to instantiate theorems. -/
def st0 : MgmtState := { next_id := 0, conversations := [], messages := [] }

/-- A concrete service state holding one conversation (id 0, owned by
user 1, named "test"), used to instantiate theorems. -/
def st1w : MgmtState :=
  { next_id := 1
    conversations := [{ id := 0, user_id := 1, name := some "test" }]
    messages := [] }

/-- Auxiliary: `find?` skips a prefix on which the predicate is false. -/
theorem find?_append_of_forall_false {α : Type} (p : α → Bool) (l1 l2 : List α)
    (h : ∀ a ∈ l1, p a = false) : (l1 ++ l2).find? p = l2.find? p := by
  induction l1 with
  | nil => simp
  | cons x xs ih =>
    have hx := h x (by simp)
    simpa [List.find?, hx] using ih (fun a ha => h a (by simp [ha]))

/-- Auxiliary: mapping a function that fixes every element of a list leaves
the list unchanged. -/
theorem map_eq_self_of_forall_eq {α : Type} (g : α → α) (l : List α)
    (h : ∀ a ∈ l, g a = a) : l.map g = l := by
  induction l with
  | nil => rfl
  | cons x xs ih =>
    simp [h x (by simp), ih (fun a ha => h a (by simp [ha]))]

/-- Auxiliary: `find?` locates a freshly appended conversation whose id
dominates every stored id. -/
theorem find?_fresh_append (l : List Conversation) (n : Nat)
    (hlt : ∀ d ∈ l, d.id < n) (c : Conversation) (hcid : c.id = n) :
    (l ++ [c]).find? (fun d => d.id == n) = some c := by
  rw [find?_append_of_forall_false]
  · simp [List.find?, hcid]
  · intro d hd
    simp only [beq_eq_false_iff_ne]
    exact Nat.ne_of_lt (hlt d hd)

/-- C2: for every list, get and delete request, the handler passes the
singleton list `[auth_user.id]` as the user-id restriction to the downstream
service when the caller is not a superuser, and passes no restriction
(`none`) when the caller is a superuser. -/
theorem C2_user_id_restriction {σ : Type} (svc : ManagementService σ) (st : σ)
    (ids : List String) (uuids : List Nat) (hids : parseUUIDList ids = .ok uuids)
    (offset limit cid : Nat) (au : AuthUser) :
    (au.is_superuser = false →
        ConversationsRouter.list_conversations svc st ids offset limit au
            = .ok (svc.conversations_overview st offset limit uuids (some [au.id]))
      ∧ ConversationsRouter.get_conversation svc st cid au
            = (svc.get_conversation st cid (some [au.id])).mapError .service
      ∧ ConversationsRouter.delete_conversation svc st cid au
            = ((svc.delete_conversation st cid (some [au.id])).map
                (fun st' => (st', { success := true }))).mapError .service)
  ∧ (au.is_superuser = true →
        ConversationsRouter.list_conversations svc st ids offset limit au
            = .ok (svc.conversations_overview st offset limit uuids none)
      ∧ ConversationsRouter.get_conversation svc st cid au
            = (svc.get_conversation st cid none).mapError .service
      ∧ ConversationsRouter.delete_conversation svc st cid au
            = ((svc.delete_conversation st cid none).map
                (fun st' => (st', { success := true }))).mapError .service) := by
  constructor <;> intro h <;> refine ⟨?_, ?_, ?_⟩ <;>
      simp [ConversationsRouter.list_conversations, ConversationsRouter.get_conversation,
        ConversationsRouter.delete_conversation, h, hids] <;>
    cases svc.delete_conversation st cid _ <;> simp [Except.map, Except.mapError]

/-- C2 witness at a concrete non-superuser get request. -/
theorem C2_user_id_restriction_witness :
    ConversationsRouter.get_conversation mgmtService st1w 0 { id := 1, is_superuser := false }
      = (mgmtService.get_conversation st1w 0 (some [1])).mapError .service :=
  ((C2_user_id_restriction mgmtService st1w [] [] rfl 0 100 0
      { id := 1, is_superuser := false }).1 rfl).2.1

/-- C4: the update-message handler performs no validation: for every
combination of inputs — including absent content and metadata and empty
content — it delegates to the downstream edit-message call, forwarding
exactly the message id, content and metadata. -/
theorem C4_update_message_no_validation {σ : Type} (svc : ManagementService σ)
    (st : σ) (id message_id : Nat) (content : Option String)
    (metadata : Option Metadata) (au : AuthUser) :
    ConversationsRouter.update_message svc st id message_id content metadata au
      = (svc.edit_message st message_id content metadata).mapError .service := rfl

/-- C6: whenever the downstream delete call completes without error the
delete handler responds with the `success = true` acknowledgment, and
whenever the downstream call raises, the error is propagated unchanged and
no success acknowledgment is produced. -/
theorem C6_delete_ack {σ : Type} (svc : ManagementService σ) (st : σ)
    (id : Nat) (au : AuthUser) :
    (∀ st', svc.delete_conversation st id
          (if au.is_superuser then none else some [au.id]) = .ok st' →
        ConversationsRouter.delete_conversation svc st id au
          = .ok (st', { success := true }))
  ∧ (∀ e, svc.delete_conversation st id
          (if au.is_superuser then none else some [au.id]) = .error e →
        ConversationsRouter.delete_conversation svc st id au
          = .error (.service e)) := by
  constructor
  · intro st' h; simp [ConversationsRouter.delete_conversation, h]
  · intro e h; simp [ConversationsRouter.delete_conversation, h]

/-- C6 witness: a concrete successful delete acknowledged with success. -/
theorem C6_delete_ack_witness :
    ConversationsRouter.delete_conversation mgmtService st1w 0
        { id := 1, is_superuser := false }
      = .ok ({ next_id := 1, conversations := [], messages := [] },
             { success := true }) :=
  (C6_delete_ack mgmtService st1w 0 { id := 1, is_superuser := false }).1
    { next_id := 1, conversations := [], messages := [] } (by decide)

/-- C8: every create-conversation request forwards the caller's identity id
as the owning user to the downstream create call, and (against the modelled
service) the returned conversation's owner equals the caller's id. -/
theorem C8_create_owner :
    (∀ (σ : Type) (svc : ManagementService σ) (st : σ) (name : Option String)
        (au : AuthUser),
        ConversationsRouter.create_conversation svc st name au
          = svc.create_conversation st au.id name)
  ∧ (∀ (st : MgmtState) (name : Option String) (au : AuthUser),
        (ConversationsRouter.create_conversation mgmtService st name au).2.user_id
          = au.id) :=
  ⟨fun _ _ _ _ _ => rfl, fun _ _ _ => rfl⟩

/-- C9: the update-message handler's outcome is independent of the
conversation id path parameter (and of the authenticated user): identical
message id, content and metadata yield identical forwarded calls. -/
theorem C9_update_message_conv_id_independent {σ : Type}
    (svc : ManagementService σ) (st : σ) (id1 id2 message_id : Nat)
    (content : Option String) (metadata : Option Metadata) (au1 au2 : AuthUser) :
    ConversationsRouter.update_message svc st id1 message_id content metadata au1
      = ConversationsRouter.update_message svc st id2 message_id content metadata au2 := rfl

/-- C3: the add-message handler raises a 400 `R2RException` if and only if
the content is empty or the role lies outside user/assistant/system; in that
case the outcome is independent of the downstream service and its state (no
delegation happens, so no state is changed); otherwise it delegates to the
downstream add-message call. -/
theorem C3_add_message_validation {σ : Type} (svc svc' : ManagementService σ)
    (st st' : σ) (id : Nat) (content role : String) (parent_id : Option Nat)
    (metadata : Option Metadata) (au au' : AuthUser) :
    (isValidation400
        (ConversationsRouter.add_message svc st id content role parent_id metadata au) = true
      ↔ content = "" ∨ ¬ role ∈ (["user", "assistant", "system"] : List String))
  ∧ ((content = "" ∨ ¬ role ∈ (["user", "assistant", "system"] : List String)) →
        ConversationsRouter.add_message svc st id content role parent_id metadata au
          = ConversationsRouter.add_message svc' st' id content role parent_id metadata au')
  ∧ (content ≠ "" → role ∈ (["user", "assistant", "system"] : List String) →
        ConversationsRouter.add_message svc st id content role parent_id metadata au
          = (svc.add_message st id { role := role, content := content }
              parent_id metadata).mapError .service) := by
  unfold ConversationsRouter.add_message
  by_cases hc : content = "" <;>
    by_cases hr : role ∈ (["user", "assistant", "system"] : List String) <;>
      simp [hc, hr, isValidation400]
  cases svc.add_message st id { role := role, content := content } parent_id metadata <;>
    simp [Except.mapError, isValidation400]

/-- C3 witness: empty content yields the same validation outcome whatever
the service and state. -/
theorem C3_add_message_validation_witness :
    ConversationsRouter.add_message mgmtService st0 0 "" "user" none none
        { id := 1, is_superuser := false }
      = ConversationsRouter.add_message mgmtService st1w 0 "" "user" none none
        { id := 2, is_superuser := true } :=
  (C3_add_message_validation mgmtService mgmtService st0 st1w 0 "" "user" none none
      { id := 1, is_superuser := false } { id := 2, is_superuser := true }).2.1
    (Or.inl rfl)

/-- C10: the list handler converts each id string to a UUID inside the
handler body before any downstream call; on an invalid string the outcome is
the conversion error — not an in-handler 400 validation error — and is
independent of the downstream service and its state (the service is never
called); when all strings convert, the handler delegates. -/
theorem C10_list_uuid_conversion {σ : Type} (svc svc' : ManagementService σ)
    (st st' : σ) (ids : List String) (offset limit : Nat) (au : AuthUser) :
    (∀ e, parseUUIDList ids = .error e →
        ConversationsRouter.list_conversations svc st ids offset limit au
            = .error (.uuidValueError e)
      ∧ ConversationsRouter.list_conversations svc st ids offset limit au
            = ConversationsRouter.list_conversations svc' st' ids offset limit au
      ∧ isValidation400
            (ConversationsRouter.list_conversations svc st ids offset limit au) = false)
  ∧ (∀ uuids, parseUUIDList ids = .ok uuids →
        ConversationsRouter.list_conversations svc st ids offset limit au
          = .ok (svc.conversations_overview st offset limit uuids
              (if au.is_superuser then none else some [au.id]))) := by
  constructor
  · intro e he
    refine ⟨?_, ?_, ?_⟩ <;> simp [ConversationsRouter.list_conversations, he, isValidation400]
  · intro uuids hu
    simp [ConversationsRouter.list_conversations, hu]

/-- C10 witness: a concrete invalid id string fails with the conversion
error before any downstream call. -/
theorem C10_list_uuid_conversion_witness :
    ConversationsRouter.list_conversations mgmtService st0 ["not-a-uuid"] 0 100
        { id := 1, is_superuser := false }
      = .error (.uuidValueError "badly formed hexadecimal UUID string") :=
  ((C10_list_uuid_conversion mgmtService mgmtService st0 st1w ["not-a-uuid"] 0 100
      { id := 1, is_superuser := false }).1
    "badly formed hexadecimal UUID string" (by decide)).1

/-- C7: for every list request the response holds at most `limit`
conversations, and the reported `total_entries` is independent of the offset
and limit — it equals the size of the full set matching the ids/ownership
filter. -/
theorem C7_list_pagination (st : MgmtState) (au : AuthUser) (ids : List String)
    (uuids : List Nat) (hp : parseUUIDList ids = .ok uuids)
    (offset limit offset2 limit2 : Nat) :
    ∃ r r2,
      ConversationsRouter.list_conversations mgmtService st ids offset limit au = .ok r
      ∧ ConversationsRouter.list_conversations mgmtService st ids offset2 limit2 au = .ok r2
      ∧ r.results.length ≤ limit
      ∧ r.total_entries = r2.total_entries
      ∧ r.total_entries = (Mgmt.overviewMatching st uuids
            (if au.is_superuser then none else some [au.id])).length := by
  refine ⟨Mgmt.conversations_overview st offset limit uuids
      (if au.is_superuser then none else some [au.id]),
    Mgmt.conversations_overview st offset2 limit2 uuids
      (if au.is_superuser then none else some [au.id]), ?_, ?_, ?_, ?_, ?_⟩
  · simp [ConversationsRouter.list_conversations, hp, mgmtService]
  · simp [ConversationsRouter.list_conversations, hp, mgmtService]
  · simp [Mgmt.conversations_overview]
  · rfl
  · rfl

/-- C1 counterexample: the claim fails as stated — the update-conversation
handler passes no ownership restriction, so a non-superuser (id 2) renames a
conversation owned by user 1: the mutation succeeds, the stored state
changes, and the mutated conversation is not owned by the caller. -/
theorem C1_update_without_ownership_cex :
    ConversationsRouter.update_conversation mgmtService st1w 0 "hacked"
        { id := 2, is_superuser := false }
      = .ok ({ next_id := 1
               conversations := [{ id := 0, user_id := 1, name := some "hacked" }]
               messages := [] },
             { id := 0, user_id := 1, name := some "hacked" })
    ∧ ({ id := 0, user_id := 1, name := some "hacked" } : Conversation).user_id
        ≠ ({ id := 2, is_superuser := false } : AuthUser).id
    ∧ ({ next_id := 1
         conversations := [{ id := 0, user_id := 1, name := some "hacked" }]
         messages := [] } : MgmtState).conversations ≠ st1w.conversations := by
  decide

/-- C1 amended: the ownership invariant holds for the operations that pass
the identity restriction — list, get and delete: a non-superuser receives
only conversations it owns from list and get, and delete removes only
conversations it owns (create assigns ownership to the caller; the
update-conversation, add-message and update-message handlers pass no
ownership restriction, per the counterexample). -/
theorem C1_scoping_list_get_delete (st : MgmtState) (hwf : st.WF) (au : AuthUser)
    (hau : au.is_superuser = false) :
    (∀ ids offset limit r,
        ConversationsRouter.list_conversations mgmtService st ids offset limit au = .ok r →
        ∀ c ∈ r.results, c.user_id = au.id)
  ∧ (∀ cid d,
        ConversationsRouter.get_conversation mgmtService st cid au = .ok d →
        d.conversation.user_id = au.id)
  ∧ (∀ cid st' b,
        ConversationsRouter.delete_conversation mgmtService st cid au = .ok (st', b) →
        ∀ c ∈ st.conversations, c ∉ st'.conversations → c.user_id = au.id) := by
  obtain ⟨hnodup, -, -, -⟩ := hwf
  refine ⟨?_, ?_, ?_⟩
  · intro ids offset limit r hr c hc
    unfold ConversationsRouter.list_conversations at hr
    rw [hau] at hr
    cases hp : parseUUIDList ids with
    | error e => simp [hp] at hr
    | ok uuids =>
      simp only [hp, if_false, Bool.false_eq_true, Except.ok.injEq] at hr
      subst hr
      have hc' : c ∈ Mgmt.overviewMatching st uuids (some [au.id]) :=
        List.mem_of_mem_drop (List.mem_of_mem_take hc)
      have hpred := (List.mem_filter.mp hc').2
      simp only [Bool.and_eq_true] at hpred
      simpa [ownerAllowed] using hpred.2
  · intro cid d hd
    unfold ConversationsRouter.get_conversation at hd
    rw [hau] at hd
    simp only [mgmtService, Mgmt.get_conversation, if_false, Bool.false_eq_true] at hd
    cases hfind : st.conversations.find? (fun c => c.id == cid) with
    | none => simp [hfind, Except.mapError] at hd
    | some cf =>
      rw [hfind] at hd
      by_cases hall : ownerAllowed (some [au.id]) cf.user_id = true
      · simp only [hall, if_true, Except.mapError, Except.ok.injEq] at hd
        subst hd
        simpa [ownerAllowed] using hall
      · simp [hall, Except.mapError] at hd
  · intro cid st' b hdel c hcmem hcnot
    unfold ConversationsRouter.delete_conversation at hdel
    rw [hau] at hdel
    simp only [mgmtService, Mgmt.delete_conversation, if_false, Bool.false_eq_true] at hdel
    cases hfind : st.conversations.find? (fun x => x.id == cid) with
    | none => simp [hfind] at hdel
    | some cf =>
      rw [hfind] at hdel
      by_cases hall : ownerAllowed (some [au.id]) cf.user_id = true
      · simp only [hall, if_true, Except.ok.injEq, Prod.mk.injEq] at hdel
        have hst' : st'.conversations
            = st.conversations.filter (fun x => !(x.id == cid)) := by
          rw [← hdel.1]
        have hid : c.id = cid := by
          by_contra hne
          exact hcnot (hst' ▸ List.mem_filter.mpr
            ⟨hcmem, by simp [beq_eq_false_iff_ne, hne]⟩)
        have hcfid : cf.id = cid := by
          have := List.find?_some hfind
          simpa using this
        have hcfmem : cf ∈ st.conversations := List.mem_of_find?_eq_some hfind
        have hceq : c = cf :=
          List.inj_on_of_nodup_map hnodup hcmem hcfmem (by rw [hid, hcfid])
        subst hceq
        simpa [ownerAllowed] using hall
      · simp [hall] at hdel

/-- C1 witness: a concrete non-superuser get on an owned conversation,
through the amended scoping theorem. -/
theorem C1_scoping_list_get_delete_witness :
    ({ conversation := { id := 0, user_id := 1, name := some "test" }
       messages := [] } : ConversationDetail).conversation.user_id
      = ({ id := 1, is_superuser := false } : AuthUser).id :=
  (C1_scoping_list_get_delete st1w (by decide) { id := 1, is_superuser := false }
      rfl).2.1 0
    { conversation := { id := 0, user_id := 1, name := some "test" }, messages := [] }
    (by decide)

/-- C5: creating a conversation with a name and retrieving it by the
returned id yields that name; updating the name and retrieving again yields
the new name (router handlers over the modelled service, same caller
throughout). -/
theorem C5_name_roundtrip (st : MgmtState) (hwf : st.WF) (au : AuthUser)
    (name : Option String) (N2 : String) :
    ∃ st1 c,
      ConversationsRouter.create_conversation mgmtService st name au = (st1, c)
      ∧ (∃ d, ConversationsRouter.get_conversation mgmtService st1 c.id au = .ok d
            ∧ d.conversation.name = name)
      ∧ (∃ st2 c2,
            ConversationsRouter.update_conversation mgmtService st1 c.id N2 au = .ok (st2, c2)
          ∧ ∃ d2, ConversationsRouter.get_conversation mgmtService st2 c.id au = .ok d2
                ∧ d2.conversation.name = some N2) := by
  obtain ⟨-, hlt, -, -⟩ := hwf
  have hallowed :
      ownerAllowed (if au.is_superuser then none else some [au.id]) au.id = true := by
    cases hsu : au.is_superuser <;> simp [ownerAllowed, hsu]
  have hget : ∀ nm : Option String,
      ConversationsRouter.get_conversation mgmtService
          { next_id := st.next_id + 1
            conversations :=
              st.conversations ++ [{ id := st.next_id, user_id := au.id, name := nm }]
            messages := st.messages } st.next_id au
        = .ok { conversation := { id := st.next_id, user_id := au.id, name := nm }
                messages :=
                  st.messages.filter (fun m => m.conversation_id == st.next_id) } := by
    intro nm
    have hfind := find?_fresh_append st.conversations st.next_id hlt
        { id := st.next_id, user_id := au.id, name := nm } rfl
    simp [ConversationsRouter.get_conversation, mgmtService, Mgmt.get_conversation,
      hfind, hallowed, Except.mapError]
  have hupdate :
      ConversationsRouter.update_conversation mgmtService
          { next_id := st.next_id + 1
            conversations :=
              st.conversations ++ [{ id := st.next_id, user_id := au.id, name := name }]
            messages := st.messages } st.next_id N2 au
        = .ok ({ next_id := st.next_id + 1
                 conversations :=
                   st.conversations ++ [{ id := st.next_id, user_id := au.id, name := some N2 }]
                 messages := st.messages },
               { id := st.next_id, user_id := au.id, name := some N2 }) := by
    have hfind := find?_fresh_append st.conversations st.next_id hlt
        { id := st.next_id, user_id := au.id, name := name } rfl
    have hmapself :
        (st.conversations.map fun d =>
            if d.id = st.next_id
            then { id := st.next_id, user_id := au.id, name := some N2 }
            else d)
          = st.conversations := by
      refine map_eq_self_of_forall_eq _ _ (fun d hd => ?_)
      exact if_neg (Nat.ne_of_lt (hlt d hd))
    simp [ConversationsRouter.update_conversation, mgmtService, Mgmt.update_conversation,
      hfind, hmapself, Except.mapError]
  exact ⟨_, _, rfl, ⟨_, hget name, rfl⟩, _, _, hupdate, _, hget (some N2), rfl⟩

/-- C5 witness at a concrete initial state, caller and names. -/
theorem C5_name_roundtrip_witness :
    ∃ st1 c,
      ConversationsRouter.create_conversation mgmtService st0 (some "test")
          { id := 1, is_superuser := false } = (st1, c)
      ∧ (∃ d, ConversationsRouter.get_conversation mgmtService st1 c.id
              { id := 1, is_superuser := false } = .ok d
            ∧ d.conversation.name = some "test")
      ∧ (∃ st2 c2,
            ConversationsRouter.update_conversation mgmtService st1 c.id "renamed"
                { id := 1, is_superuser := false } = .ok (st2, c2)
          ∧ ∃ d2, ConversationsRouter.get_conversation mgmtService st2 c.id
                  { id := 1, is_superuser := false } = .ok d2
                ∧ d2.conversation.name = some "renamed") :=
  C5_name_roundtrip st0 (by decide) { id := 1, is_superuser := false }
    (some "test") "renamed"

/-- C7 witness at a concrete state and two concrete pages. -/
theorem C7_list_pagination_witness :
    ∃ r r2,
      ConversationsRouter.list_conversations mgmtService st1w [] 0 100
          { id := 1, is_superuser := false } = .ok r
      ∧ ConversationsRouter.list_conversations mgmtService st1w [] 1 5
          { id := 1, is_superuser := false } = .ok r2
      ∧ r.results.length ≤ 100
      ∧ r.total_entries = r2.total_entries
      ∧ r.total_entries = (Mgmt.overviewMatching st1w []
            (if ({ id := 1, is_superuser := false } : AuthUser).is_superuser
             then none else some [1])).length :=
  C7_list_pagination st1w { id := 1, is_superuser := false } [] [] rfl 0 100 1 5
